import Mathlib

/-!
Verification of the fusion/decision engine and the rule-based behavioural
scorer of the FYP2 ransomware-detection service.

Shallow embedding notes:
* Python floats are embedded as exact rationals (`ℚ`); all the constants
  involved (0.6, 0.4, 0.5, 0.3, 0.7, 0.02, 0.6/0.2/0.2) are exactly
  representable so the decision logic is faithfully captured.
* A cell of a pandas row is embedded as `PyVal` (a number, a string, or
  Python `None`); an absent column is `Option.none`. Python truthiness,
  the short-circuit `or`, and the `float(...)` builtin (which raises
  `ValueError` on a string it cannot parse) are modelled explicitly,
  because `behav_model._compute_behav_score` relies on
  `float(row.get(k, 0) or 0)` for its permissive coercion.
* Functions that can raise are embedded in `Except String`.
-/

namespace RansomDetect

/-- A Python value as it can appear in a behavioural feature cell. -/
inductive PyVal where
  | none
  | num (q : ℚ)
  | str (s : String)
deriving DecidableEq, Repr

/-- Python truthiness for the values above: `None` is falsy, a number is
truthy iff non-zero, a string is truthy iff non-empty. -/
def PyVal.truthy : PyVal → Bool
  | .none => false
  | .num q => q ≠ 0
  | .str s => s ≠ ""

/-- Python short-circuit `a or b`: the first operand if truthy, else the
second. -/
def pyOr (a b : PyVal) : PyVal :=
  if a.truthy then a else b

/-- Value of a list of decimal digit characters. -/
def digitsVal (cs : List Char) : ℕ :=
  cs.foldl (fun a c => a * 10 + (c.toNat - 48)) 0

/-- Parse an unsigned decimal literal (digits with an optional fractional
part), as accepted by Python `float()`; `Option.none` when the characters
do not form such a literal. -/
def parseUnsignedDec (cs : List Char) : Option ℚ :=
  let intPart := cs.takeWhile Char.isDigit
  match cs.dropWhile Char.isDigit with
  | [] => if intPart.isEmpty then Option.none else some (digitsVal intPart)
  | '.' :: frac =>
      if frac.all Char.isDigit && !(intPart.isEmpty && frac.isEmpty) then
        some ((digitsVal intPart : ℚ) + (digitsVal frac : ℚ) / (10 ^ frac.length))
      else Option.none
  | _ => Option.none

/-- Strip leading and trailing whitespace from a character list. -/
def trimChars (cs : List Char) : List Char :=
  ((cs.dropWhile Char.isWhitespace).reverse.dropWhile Char.isWhitespace).reverse

/-- Parse a string as Python `float()` does for plain decimal input:
surrounding whitespace is ignored, an optional sign is allowed. -/
def parseFloatStr (s : String) : Option ℚ :=
  match trimChars s.toList with
  | '+' :: cs => parseUnsignedDec cs
  | '-' :: cs => (parseUnsignedDec cs).map Neg.neg
  | cs => parseUnsignedDec cs

/-- Python's `float(v)` builtin: a number converts to itself, `None` is a
`TypeError`, and a string converts iff it parses as a numeric literal
(otherwise `ValueError: could not convert string to float`). -/
def pyFloat : PyVal → Except String ℚ
  | .num q => .ok q
  | .none => .error "float() argument must be a string or a real number, not NoneType"
  | .str s =>
      match parseFloatStr s with
      | some q => .ok q
      | Option.none => .error ("could not convert string to float: " ++ s)

/-- One behavioural feature row; `Option.none` marks an absent column
(`row.get` then returns its default). -/
structure BehavRow where
  total_events : Option PyVal := Option.none
  n_proc_create : Option PyVal := Option.none
  n_file_create : Option PyVal := Option.none
  n_net_conn : Option PyVal := Option.none
  ratio_proc_create : Option PyVal := Option.none
  ratio_file_create : Option PyVal := Option.none
  ratio_net_conn : Option PyVal := Option.none
deriving DecidableEq, Repr

/-- `float(row.get(key, 0) or 0)` — the coercion used for the four raw
counts in `_compute_behav_score`. -/
def coerceCount (v : Option PyVal) : Except String ℚ :=
  pyFloat (pyOr (v.getD (.num 0)) (.num 0))

/-- `float(row.get(key, 0) or (n / total if total > 0 else 0))` — the
coercion used for the three ratio fields in `_compute_behav_score`. -/
def coerceRatioField (v : Option PyVal) (n total : ℚ) : Except String ℚ :=
  pyFloat (pyOr (v.getD (.num 0)) (.num (if total > 0 then n / total else 0)))

/-- Tunable threshold for "malicious" based on behavioural score
(`BEHAV_THRESHOLD = 0.6`). -/
def BEHAV_THRESHOLD : ℚ := 0.6

def reason_file : String :=
  "Unusually high proportion of file-creation events, consistent with mass file modification or encryption behaviour."

def reason_net : String :=
  "Network connection events detected, suggesting potential propagation or command-and-control communication."

def reason_proc : String :=
  "Multiple process creation events observed, which may indicate process spawning or code injection behaviour."

def reason_benign : String :=
  "Behavioural activity appears within normal ranges typically observed in benign software."

def reason_no_events : String :=
  "No behavioural events available for analysis."

/-- The pure body of `_compute_behav_score` once the seven fields have
been coerced: the three additive rule checks, the clamp to [0,1], and the
benign fallback reason. -/
def scoreFromVals (n_proc n_file n_net ratio_proc ratio_file ratio_net : ℚ) :
    ℚ × List String :=
  let score : ℚ := 0
  let reasons : List String := []
  let sr :=
    if n_file > 1000 ∨ ratio_file > 0.5 then
      (score + 0.6, reasons ++ [reason_file])
    else (score, reasons)
  let sr :=
    if n_net > 5 ∨ ratio_net > 0.02 then
      (sr.1 + 0.2, sr.2 ++ [reason_net])
    else sr
  let sr :=
    if n_proc > 10 ∨ ratio_proc > 0.02 then
      (sr.1 + 0.2, sr.2 ++ [reason_proc])
    else sr
  let score := max 0 (min sr.1 1)
  let reasons := if sr.2 = [] then [reason_benign] else sr.2
  (score, reasons)

/-- `behav_model._compute_behav_score(row)`: coerce the seven fields
(`float(... or ...)`, which can raise on malformed text), then apply the
pure rule scoring. -/
def _compute_behav_score (row : BehavRow) : Except String (ℚ × List String) := do
  let total ← coerceCount row.total_events
  let n_proc ← coerceCount row.n_proc_create
  let n_file ← coerceCount row.n_file_create
  let n_net ← coerceCount row.n_net_conn
  let ratio_proc ← coerceRatioField row.ratio_proc_create n_proc total
  let ratio_file ← coerceRatioField row.ratio_file_create n_file total
  let ratio_net ← coerceRatioField row.ratio_net_conn n_net total
  return scoreFromVals n_proc n_file n_net ratio_proc ratio_file ratio_net

/-- Score each row in order, propagating the first raised error, as the
`for idx, row in df.iterrows()` loop in `predict_behav` does. -/
def scoreRows : List BehavRow → Except String (List (ℚ × List String))
  | [] => .ok []
  | row :: rest => do
      let x ← _compute_behav_score row
      let xs ← scoreRows rest
      return x :: xs

/-- `behav_model.predict_behav(df)`: the empty/absent-input early return,
then per-row scores, elementwise thresholding at `BEHAV_THRESHOLD`, and
reasons kept from the first row only. Returns
`(probs, preds, threshold_used, reasons)`. -/
def predict_behav (df : List BehavRow) :
    Except String (List ℚ × List ℕ × ℚ × List String) :=
  if df.isEmpty then
    .ok ([0], [0], BEHAV_THRESHOLD, [reason_no_events])
  else do
    let results ← scoreRows df
    let probs := results.map Prod.fst
    let preds := probs.map (fun p => if p ≥ BEHAV_THRESHOLD then (1 : ℕ) else 0)
    let reasonsFirst := ((results.head?).map Prod.snd).getD []
    return (probs, preds, BEHAV_THRESHOLD, reasonsFirst)

/-! ### Fusion engine (`app.combine_model_outputs`) -/

/-- `FUSION_WEIGHTS = (0.6, 0.4)` — static weight, behavioural weight. -/
def FUSION_WEIGHTS : ℚ × ℚ := (0.6, 0.4)

/-- `FUSION_THRESHOLD = 0.50` — global verdict threshold. -/
def FUSION_THRESHOLD : ℚ := 0.5

/-- `app.risk_band_from_prob(p)`. -/
def risk_band_from_prob (p : ℚ) : String :=
  if p < 0.3 then "Safe"
  else if p ≤ 0.7 then "Caution"
  else "High Risk"

/-- What one component scorer hands to the fusion engine:
`(probs, preds, threshold, reasons)`. -/
structure ScoreResult where
  probs : List ℚ
  preds : List ℕ
  threshold : ℚ
  reasons : List String
deriving DecidableEq, Repr

/-- The fusion engine's output: `final_prob`, `verdict`, and the
`risk_band` and deduplicated `reasons` recorded in `debug_info`. -/
structure FusionResult where
  final_prob : ℚ
  verdict : String
  risk_band : String
  reasons : List String
deriving DecidableEq, Repr

/-- `np.mean` of a list of per-row probabilities. -/
def listMean (xs : List ℚ) : ℚ := xs.sum / xs.length

/-- The dedup-and-truncate loop of `combine_model_outputs`: keep the first
occurrence of each string, stop as soon as three have been kept. -/
def dedupLoop : List String → List String → List String
  | [], acc => acc
  | r :: rest, acc =>
      let acc2 := if r ∈ acc then acc else acc ++ [r]
      if acc2.length = 3 then acc2 else dedupLoop rest acc2

/-- `app.combine_model_outputs`, expressed over the outcome of each
component scorer (`Option.none` = that scorer raised and its exception was
swallowed into `debug_info`). Reasons are accumulated behavioural-first,
exactly as the two `final_reasons.extend` calls run; fusion picks the
weighted average, either single mean, or raises `RuntimeError` when both
components failed. -/
def combine_model_outputs (static_res behav_res : Option ScoreResult) :
    Except String FusionResult :=
  let final_reasons :=
    ((behav_res.map ScoreResult.reasons).getD []) ++
    ((static_res.map ScoreResult.reasons).getD [])
  let finish := fun (final_prob : ℚ) =>
    Except.ok
      { final_prob := final_prob
        verdict := if final_prob ≥ FUSION_THRESHOLD then "Malicious" else "Safe"
        risk_band := risk_band_from_prob final_prob
        reasons := dedupLoop final_reasons [] }
  match static_res, behav_res with
  | some s, some b =>
      finish (FUSION_WEIGHTS.1 * listMean s.probs + FUSION_WEIGHTS.2 * listMean b.probs)
  | some s, Option.none => finish (listMean s.probs)
  | Option.none, some b => finish (listMean b.probs)
  | Option.none, Option.none => Except.error "Both models failed."

/-- First-occurrence deduplication with no early stop: the reference
description of the dedup step ("deduplicate by exact string equality while
preserving first-seen order"), to be compared with `dedupLoop`. -/
def dedupFirstOcc : List String → List String → List String
  | [], acc => acc
  | r :: rest, acc => dedupFirstOcc rest (if r ∈ acc then acc else acc ++ [r])

/-- A behavioural row whose `total_events` cell holds the non-numeric
text "abc". -/
def rowMalformed : BehavRow := { total_events := some (.str "abc") }

/-- A cell value that the `float(... or ...)` coercion can always handle:
absent, `None`, numeric, or a string that is empty or parses as a
number. -/
def coercibleVal : Option PyVal → Prop
  | Option.none => True
  | some .none => True
  | some (.num _) => True
  | some (.str s) => s = "" ∨ (parseFloatStr s).isSome

/-! ### Helper lemmas -/

theorem bind_ok {α β : Type} (a : α) (f : α → Except String β) :
    (Except.ok a : Except String α) >>= f = f a := rfl

theorem bind_err {α β : Type} (e : String) (f : α → Except String β) :
    (Except.error e : Except String α) >>= f = Except.error e := rfl

/-- Any successful fusion output has its verdict and band computed from its
own final probability by the global threshold and the band function. -/
theorem combine_ok_shape (so bo : Option ScoreResult) (out : FusionResult)
    (h : combine_model_outputs so bo = .ok out) :
    out.verdict = (if out.final_prob ≥ FUSION_THRESHOLD then "Malicious" else "Safe") ∧
    out.risk_band = risk_band_from_prob out.final_prob := by
  cases so <;> cases bo <;>
    simp only [combine_model_outputs, Except.ok.injEq, reduceCtorEq] at h
  all_goals (subst h; exact ⟨rfl, rfl⟩)

theorem risk_band_safe_iff (p : ℚ) : risk_band_from_prob p = "Safe" ↔ p < 0.3 := by
  unfold risk_band_from_prob
  split_ifs with h1 h2
  · simp [h1]
  · exact ⟨fun hc => absurd hc (by decide), fun hc => absurd hc h1⟩
  · exact ⟨fun hc => absurd hc (by decide), fun hc => absurd hc h1⟩

theorem risk_band_caution_iff (p : ℚ) :
    risk_band_from_prob p = "Caution" ↔ (0.3 ≤ p ∧ p ≤ 0.7) := by
  unfold risk_band_from_prob
  split_ifs with h1 h2
  · exact ⟨fun hc => absurd hc (by decide), fun hc => absurd h1 (not_lt.mpr hc.1)⟩
  · simp only [true_iff]
    exact ⟨not_lt.mp h1, h2⟩
  · exact ⟨fun hc => absurd hc (by decide), fun hc => absurd hc.2 h2⟩

theorem risk_band_high_iff (p : ℚ) :
    risk_band_from_prob p = "High Risk" ↔ 0.7 < p := by
  unfold risk_band_from_prob
  split_ifs with h1 h2
  · exact ⟨fun hc => absurd hc (by decide), fun hc => by linarith⟩
  · exact ⟨fun hc => absurd hc (by decide), fun hc => absurd h2 (not_le.mpr hc)⟩
  · simp only [true_iff]
    exact not_le.mp h2

theorem verdict_malicious_iff (p : ℚ) :
    (if p ≥ FUSION_THRESHOLD then "Malicious" else "Safe") = "Malicious" ↔ 0.5 ≤ p := by
  split_ifs with hc
  · exact ⟨fun _ => hc, fun _ => rfl⟩
  · exact ⟨fun hcon => absurd hcon (by decide), fun hle => absurd hle hc⟩

theorem verdict_safe_iff (p : ℚ) :
    (if p ≥ FUSION_THRESHOLD then "Malicious" else "Safe") = "Safe" ↔ p < 0.5 := by
  split_ifs with hc
  · exact ⟨fun hcon => absurd hcon (by decide), fun hlt => absurd hc (not_le.mpr hlt)⟩
  · exact ⟨fun _ => not_le.mp hc, fun _ => rfl⟩

theorem bind_ok_inv {α β : Type} {x : Except String α} {f : α → Except String β} {b : β}
    (h : x >>= f = .ok b) : ∃ a, x = .ok a ∧ f a = .ok b := by
  cases x with
  | error e => simp [bind_err] at h
  | ok a => exact ⟨a, rfl, by simpa [bind_ok] using h⟩

/-- The first component of the pure rule-scoring body equals the clamp to
[0,1] of the sum of the triggered rule weights. -/
theorem scoreFromVals_fst (np nf nn rp rf rn : ℚ) :
    (scoreFromVals np nf nn rp rf rn).1 =
      max 0 (min ((if nf > 1000 ∨ rf > 0.5 then (0.6 : ℚ) else 0) +
                  (if nn > 5 ∨ rn > 0.02 then (0.2 : ℚ) else 0) +
                  (if np > 10 ∨ rp > 0.02 then (0.2 : ℚ) else 0)) 1) := by
  simp only [scoreFromVals]
  split_ifs <;> norm_num

theorem scoreFromVals_range (np nf nn rp rf rn : ℚ) :
    0 ≤ (scoreFromVals np nf nn rp rf rn).1 ∧ (scoreFromVals np nf nn rp rf rn).1 ≤ 1 := by
  rw [scoreFromVals_fst]
  exact ⟨le_max_left 0 _, max_le (by norm_num) (min_le_right _ 1)⟩

/-- Inversion of the behavioural row scorer: a successful score arises
from successful coercion of all seven fields followed by the pure rule
body. -/
theorem compute_ok_inv (row : BehavRow) (s : ℚ) (rs : List String)
    (h : _compute_behav_score row = .ok (s, rs)) :
    ∃ total np nf nn rp rf rn,
      coerceCount row.total_events = .ok total ∧
      coerceCount row.n_proc_create = .ok np ∧
      coerceCount row.n_file_create = .ok nf ∧
      coerceCount row.n_net_conn = .ok nn ∧
      coerceRatioField row.ratio_proc_create np total = .ok rp ∧
      coerceRatioField row.ratio_file_create nf total = .ok rf ∧
      coerceRatioField row.ratio_net_conn nn total = .ok rn ∧
      scoreFromVals np nf nn rp rf rn = (s, rs) := by
  unfold _compute_behav_score at h
  obtain ⟨total, h1, h⟩ := bind_ok_inv h
  obtain ⟨np, h2, h⟩ := bind_ok_inv h
  obtain ⟨nf, h3, h⟩ := bind_ok_inv h
  obtain ⟨nn, h4, h⟩ := bind_ok_inv h
  obtain ⟨rp, h5, h⟩ := bind_ok_inv h
  obtain ⟨rf, h6, h⟩ := bind_ok_inv h
  obtain ⟨rn, h7, h⟩ := bind_ok_inv h
  refine ⟨total, np, nf, nn, rp, rf, rn, h1, h2, h3, h4, h5, h6, h7, ?_⟩
  simpa [pure, Except.pure] using h

/-- The permissive coercion succeeds on any coercible cell. -/
theorem coerceCount_ok (v : Option PyVal) (hv : coercibleVal v) :
    ∃ q, coerceCount v = .ok q := by
  match v with
  | Option.none => exact ⟨0, by simp [coerceCount, pyOr, PyVal.truthy, pyFloat]⟩
  | some .none => exact ⟨0, by simp [coerceCount, pyOr, PyVal.truthy, pyFloat]⟩
  | some (.num q) =>
      by_cases h0 : q = 0
      · exact ⟨0, by simp [coerceCount, pyOr, PyVal.truthy, h0, pyFloat]⟩
      · exact ⟨q, by simp [coerceCount, pyOr, PyVal.truthy, h0, pyFloat]⟩
  | some (.str s) =>
      by_cases hs : s = ""
      · exact ⟨0, by simp [coerceCount, pyOr, PyVal.truthy, hs, pyFloat]⟩
      · cases hv with
        | inl h => exact absurd h hs
        | inr h =>
            obtain ⟨q, hq⟩ := Option.isSome_iff_exists.mp h
            exact ⟨q, by simp [coerceCount, pyOr, PyVal.truthy, hs, pyFloat, hq]⟩

theorem coerceRatioField_ok (v : Option PyVal) (n total : ℚ) (hv : coercibleVal v) :
    ∃ q, coerceRatioField v n total = .ok q := by
  match v with
  | Option.none =>
      exact ⟨if total > 0 then n / total else 0,
        by simp [coerceRatioField, pyOr, PyVal.truthy, pyFloat]⟩
  | some .none =>
      exact ⟨if total > 0 then n / total else 0,
        by simp [coerceRatioField, pyOr, PyVal.truthy, pyFloat]⟩
  | some (.num q) =>
      by_cases h0 : q = 0
      · exact ⟨if total > 0 then n / total else 0,
          by simp [coerceRatioField, pyOr, PyVal.truthy, h0, pyFloat]⟩
      · exact ⟨q, by simp [coerceRatioField, pyOr, PyVal.truthy, h0, pyFloat]⟩
  | some (.str s) =>
      by_cases hs : s = ""
      · exact ⟨if total > 0 then n / total else 0,
          by simp [coerceRatioField, pyOr, PyVal.truthy, hs, pyFloat]⟩
      · cases hv with
        | inl h => exact absurd h hs
        | inr h =>
            obtain ⟨q, hq⟩ := Option.isSome_iff_exists.mp h
            exact ⟨q, by simp [coerceRatioField, pyOr, PyVal.truthy, hs, pyFloat, hq]⟩

theorem scoreRows_ok_length (df : List BehavRow) :
    ∀ results, scoreRows df = .ok results → results.length = df.length := by
  induction df with
  | nil =>
      intro results h
      simp only [scoreRows, Except.ok.injEq] at h
      simp [← h]
  | cons r rest ih =>
      intro results h
      unfold scoreRows at h
      obtain ⟨x, hx, h⟩ := bind_ok_inv h
      obtain ⟨xs, hxs, h⟩ := bind_ok_inv h
      simp only [pure, Except.pure, Except.ok.injEq] at h
      subst h
      simp [ih xs hxs]

theorem scoreRows_ok_get (df : List BehavRow) :
    ∀ results, scoreRows df = .ok results →
      ∀ (i : ℕ) (hi : i < df.length) (hj : i < results.length),
        _compute_behav_score (df.get ⟨i, hi⟩) = .ok (results.get ⟨i, hj⟩) := by
  induction df with
  | nil => intro results h i hi hj; exact absurd hi (by simp)
  | cons r rest ih =>
      intro results h i hi hj
      unfold scoreRows at h
      obtain ⟨x, hx, h⟩ := bind_ok_inv h
      obtain ⟨xs, hxs, h⟩ := bind_ok_inv h
      simp only [pure, Except.pure, Except.ok.injEq] at h
      subst h
      cases i with
      | zero => simpa using hx
      | succ n => exact ih xs hxs n (by simpa using hi) (by simpa using hj)

/-- Inversion of `predict_behav` on a non-empty input. -/
theorem predict_behav_ok_inv (df : List BehavRow) (probs : List ℚ) (preds : List ℕ)
    (thr : ℚ) (reasons : List String) (hne : ¬ df.isEmpty)
    (h : predict_behav df = .ok (probs, preds, thr, reasons)) :
    ∃ results, scoreRows df = .ok results ∧
      probs = results.map Prod.fst ∧
      preds = probs.map (fun p => if p ≥ BEHAV_THRESHOLD then (1 : ℕ) else 0) ∧
      thr = BEHAV_THRESHOLD ∧
      reasons = ((results.head?).map Prod.snd).getD [] := by
  unfold predict_behav at h
  rw [if_neg hne] at h
  obtain ⟨results, hres, h⟩ := bind_ok_inv h
  simp only [pure, Except.pure, Except.ok.injEq, Prod.mk.injEq] at h
  obtain ⟨h1, h2, h3, h4⟩ := h
  refine ⟨results, hres, h1.symm, ?_, h3.symm, h4.symm⟩
  rw [← h2, h1]

/-- The returned predictions of any successful behavioural scoring are the
elementwise ≥ 0.6 thresholding of the returned probabilities. -/
theorem predict_preds_iff (df : List BehavRow) (probs : List ℚ) (preds : List ℕ)
    (thr : ℚ) (reasons : List String)
    (h : predict_behav df = .ok (probs, preds, thr, reasons)) :
    preds.length = probs.length ∧
    ∀ (i : ℕ) (hi : i < preds.length) (hj : i < probs.length),
      preds.get ⟨i, hi⟩ = 1 ↔ probs.get ⟨i, hj⟩ ≥ 0.6 := by
  have hpred : preds = probs.map (fun p => if p ≥ BEHAV_THRESHOLD then (1 : ℕ) else 0) := by
    by_cases hemp : df.isEmpty
    · unfold predict_behav at h
      rw [if_pos hemp] at h
      simp only [Except.ok.injEq, Prod.mk.injEq] at h
      obtain ⟨h1, h2, _, _⟩ := h
      subst h1
      subst h2
      norm_num [BEHAV_THRESHOLD]
    · obtain ⟨results, _, _, h2, _, _⟩ :=
        predict_behav_ok_inv df probs preds thr reasons hemp h
      exact h2
  subst hpred
  refine ⟨by simp, ?_⟩
  intro i hi hj
  simp only [List.get_eq_getElem, List.getElem_map]
  split_ifs with hc
  · exact ⟨fun _ => hc, fun _ => rfl⟩
  · exact ⟨fun h01 => absurd h01 (by decide), fun hge => absurd hge hc⟩

/-! ### Claims about the fusion engine -/

/-- C1: when both scorers succeeded, the fused probability is exactly
0.6·static_mean + 0.4·behav_mean (and static mean 0.8 with behavioural
mean 0.2 gives exactly 0.56); when exactly one succeeded, the fused
probability is that scorer's mean directly. -/
theorem C1_fusion_weighted_mean (s b : ScoreResult) :
    (∃ out : FusionResult, combine_model_outputs (some s) (some b) = .ok out ∧
        out.final_prob = 0.6 * listMean s.probs + 0.4 * listMean b.probs)
  ∧ (∃ out : FusionResult, combine_model_outputs (some s) Option.none = .ok out ∧
        out.final_prob = listMean s.probs)
  ∧ (∃ out : FusionResult, combine_model_outputs Option.none (some b) = .ok out ∧
        out.final_prob = listMean b.probs)
  ∧ (∃ out : FusionResult,
        combine_model_outputs
          (some { probs := [0.8], preds := [1], threshold := 0.5, reasons := [] })
          (some { probs := [0.2], preds := [0], threshold := 0.6, reasons := [] }) = .ok out ∧
        out.final_prob = 0.56) := by
  refine ⟨⟨_, rfl, ?_⟩, ⟨_, rfl, rfl⟩, ⟨_, rfl, rfl⟩, ⟨_, rfl, ?_⟩⟩
  · norm_num [FUSION_WEIGHTS]
  · norm_num [FUSION_WEIGHTS, listMean, List.sum_cons, List.sum_nil]

/-- C2: every fused result's verdict is "Malicious" iff its final
probability is ≥ 0.50 and "Safe" iff it is < 0.50; its risk band is
"Safe"/"Caution"/"High Risk" exactly on p < 0.30, 0.30 ≤ p ≤ 0.70 and
p > 0.70 respectively; and p = 0.30 maps to "Caution", not "Safe". -/
theorem C2_verdict_and_band (so bo : Option ScoreResult) (out : FusionResult)
    (h : combine_model_outputs so bo = .ok out) :
    (out.verdict = "Malicious" ↔ 0.5 ≤ out.final_prob)
  ∧ (out.verdict = "Safe" ↔ out.final_prob < 0.5)
  ∧ (out.risk_band = "Safe" ↔ out.final_prob < 0.3)
  ∧ (out.risk_band = "Caution" ↔ (0.3 ≤ out.final_prob ∧ out.final_prob ≤ 0.7))
  ∧ (out.risk_band = "High Risk" ↔ 0.7 < out.final_prob)
  ∧ risk_band_from_prob 0.3 = "Caution" := by
  obtain ⟨hv, hb⟩ := combine_ok_shape so bo out h
  rw [hv, hb]
  exact ⟨verdict_malicious_iff _, verdict_safe_iff _, risk_band_safe_iff _,
    risk_band_caution_iff _, risk_band_high_iff _,
    by rw [risk_band_caution_iff]; norm_num⟩

theorem C2_verdict_and_band_witness :
    ∃ out : FusionResult,
      combine_model_outputs
        (some { probs := [1], preds := [1], threshold := 0.5, reasons := [] })
        Option.none = .ok out ∧
      ((out.verdict = "Malicious" ↔ 0.5 ≤ out.final_prob)
      ∧ (out.verdict = "Safe" ↔ out.final_prob < 0.5)
      ∧ (out.risk_band = "Safe" ↔ out.final_prob < 0.3)
      ∧ (out.risk_band = "Caution" ↔ (0.3 ≤ out.final_prob ∧ out.final_prob ≤ 0.7))
      ∧ (out.risk_band = "High Risk" ↔ 0.7 < out.final_prob)
      ∧ risk_band_from_prob 0.3 = "Caution") :=
  ⟨_, rfl,
    C2_verdict_and_band
      (some { probs := [1], preds := [1], threshold := 0.5, reasons := [] })
      Option.none _ rfl⟩

/-- C4: fusion raises the fatal "Both models failed." error exactly when
both component scorers failed; it then never returns a default
probability, and whenever at least one component succeeded it produces a
result. -/
theorem C4_fails_iff_both_failed (so bo : Option ScoreResult) :
    ((∃ e, combine_model_outputs so bo = .error e) ↔ (so = Option.none ∧ bo = Option.none))
  ∧ combine_model_outputs Option.none Option.none = Except.error "Both models failed."
  ∧ (∀ out : FusionResult, combine_model_outputs Option.none Option.none ≠ .ok out)
  ∧ ((so.isSome ∨ bo.isSome) → ∃ out, combine_model_outputs so bo = .ok out) := by
  refine ⟨?_, rfl, ?_, ?_⟩ <;> cases so <;> cases bo <;> simp [combine_model_outputs]

theorem dedupFirstOcc_append (l : List String) :
    ∀ acc, ∃ t, dedupFirstOcc l acc = acc ++ t := by
  induction l with
  | nil => exact fun acc => ⟨[], by simp [dedupFirstOcc]⟩
  | cons r rest ih =>
      intro acc
      unfold dedupFirstOcc
      by_cases hmem : r ∈ acc
      · simpa [hmem] using ih acc
      · obtain ⟨t, ht⟩ := ih (acc ++ [r])
        exact ⟨[r] ++ t, by simp [hmem, ht]⟩

/-- The early-break dedup loop of the fusion engine computes exactly the
first 3 entries of the full first-occurrence deduplication. -/
theorem dedupLoop_eq_take3 (l : List String) :
    ∀ acc, acc.length < 3 → dedupLoop l acc = (dedupFirstOcc l acc).take 3 := by
  induction l with
  | nil =>
      intro acc hlen
      simp [dedupLoop, dedupFirstOcc, List.take_of_length_le (le_of_lt hlen)]
  | cons r rest ih =>
      intro acc hlen
      unfold dedupLoop dedupFirstOcc
      set acc2 := if r ∈ acc then acc else acc ++ [r] with hacc2
      by_cases h3 : acc2.length = 3
      · rw [if_pos h3]
        obtain ⟨t, ht⟩ := dedupFirstOcc_append rest acc2
        rw [ht, ← h3, List.take_left]
      · rw [if_neg h3]
        apply ih
        have hle : acc2.length ≤ acc.length + 1 := by
          by_cases hmem : r ∈ acc <;> simp [hacc2, hmem]
        omega

/-- C3: the fused reasons list is the behavioural reasons followed by the
static reasons, deduplicated by exact string equality keeping the first
occurrence of each string in order, truncated to the first 3 entries;
behavioural ["A","B"] and static ["B","C","D"] fuse to ["A","B","C"]. -/
theorem C3_reasons_dedup_truncate (s b : ScoreResult) :
    (∃ out : FusionResult, combine_model_outputs (some s) (some b) = .ok out ∧
        out.reasons = (dedupFirstOcc (b.reasons ++ s.reasons) []).take 3)
  ∧ dedupLoop (["A", "B"] ++ ["B", "C", "D"]) [] = ["A", "B", "C"] := by
  constructor
  · exact ⟨_, rfl, by
      simpa using dedupLoop_eq_take3 (b.reasons ++ s.reasons) [] (by norm_num)⟩
  · decide

/-- C10: a fused result whose verdict is "Malicious" is never banded
"Safe": its risk band is "Caution" or "High Risk". -/
theorem C10_malicious_not_banded_safe (so bo : Option ScoreResult) (out : FusionResult)
    (h : combine_model_outputs so bo = .ok out) (hm : out.verdict = "Malicious") :
    out.risk_band ≠ "Safe" ∧ (out.risk_band = "Caution" ∨ out.risk_band = "High Risk") := by
  obtain ⟨hv, hb⟩ := combine_ok_shape so bo out h
  rw [hv] at hm
  have hp : (0.5 : ℚ) ≤ out.final_prob := (verdict_malicious_iff _).mp hm
  have h03 : ¬ out.final_prob < 0.3 := by
    intro hc; linarith
  constructor
  · rw [hb]; intro hc; exact h03 ((risk_band_safe_iff _).mp hc)
  · rw [hb]; unfold risk_band_from_prob; split_ifs with h1
    · exact Or.inl rfl
    · exact Or.inr rfl

theorem C10_malicious_not_banded_safe_witness :
    ∃ out : FusionResult,
      combine_model_outputs
        (some { probs := [1], preds := [1], threshold := 0.5, reasons := [] })
        Option.none = .ok out ∧
      out.risk_band ≠ "Safe" ∧ (out.risk_band = "Caution" ∨ out.risk_band = "High Risk") :=
  ⟨_, rfl,
    C10_malicious_not_banded_safe
      (some { probs := [1], preds := [1], threshold := 0.5, reasons := [] })
      Option.none _ rfl
      (by norm_num [listMean, FUSION_THRESHOLD, List.sum_cons, List.sum_nil])⟩

/-! ### Claims about the behavioural scorer -/

/-- C5: each per-row behavioural score is the clamp to [0,1] of the sum of
the triggered rule weights (0.6 when n_file_create > 1000 or
ratio_file_create > 0.5, plus 0.2 when n_net_conn > 5 or
ratio_net_conn > 0.02, plus 0.2 when n_proc_create > 10 or
ratio_proc_create > 0.02), every per-row score lies in [0,1], and
predictions[i] = 1 exactly when score[i] ≥ 0.6. -/
theorem C5_row_score_clamp_and_preds (row : BehavRow)
    (total np nf nn rp rf rn : ℚ)
    (ht : coerceCount row.total_events = .ok total)
    (hp : coerceCount row.n_proc_create = .ok np)
    (hf : coerceCount row.n_file_create = .ok nf)
    (hn : coerceCount row.n_net_conn = .ok nn)
    (hrp : coerceRatioField row.ratio_proc_create np total = .ok rp)
    (hrf : coerceRatioField row.ratio_file_create nf total = .ok rf)
    (hrn : coerceRatioField row.ratio_net_conn nn total = .ok rn) :
    (∃ rs, _compute_behav_score row =
        .ok (max 0 (min ((if nf > 1000 ∨ rf > 0.5 then (0.6 : ℚ) else 0) +
                         (if nn > 5 ∨ rn > 0.02 then (0.2 : ℚ) else 0) +
                         (if np > 10 ∨ rp > 0.02 then (0.2 : ℚ) else 0)) 1), rs))
  ∧ (∀ s rs, _compute_behav_score row = .ok (s, rs) → 0 ≤ s ∧ s ≤ 1)
  ∧ (∀ (df : List BehavRow) (probs : List ℚ) (preds : List ℕ) (thr : ℚ)
        (reasons : List String),
        predict_behav df = .ok (probs, preds, thr, reasons) →
        preds.length = probs.length ∧
        ∀ (i : ℕ) (hi : i < preds.length) (hj : i < probs.length),
          preds.get ⟨i, hi⟩ = 1 ↔ probs.get ⟨i, hj⟩ ≥ 0.6) := by
  have hcomp : _compute_behav_score row = .ok (scoreFromVals np nf nn rp rf rn) := by
    simp [_compute_behav_score, ht, hp, hf, hn, hrp, hrf, hrn, bind_ok]
  refine ⟨⟨(scoreFromVals np nf nn rp rf rn).2, ?_⟩, ?_, ?_⟩
  · rw [hcomp]
    exact congrArg Except.ok (Prod.ext (scoreFromVals_fst np nf nn rp rf rn) rfl)
  · intro s rs h
    obtain ⟨t', np', nf', nn', rp', rf', rn', _, _, _, _, _, _, _, heq⟩ :=
      compute_ok_inv row s rs h
    have hr := scoreFromVals_range np' nf' nn' rp' rf' rn'
    rw [heq] at hr
    exact hr
  · exact fun df probs preds thr reasons h => predict_preds_iff df probs preds thr reasons h

theorem C5_row_score_clamp_and_preds_witness :
    (∃ rs, _compute_behav_score {} =
        .ok (max 0 (min ((if (0 : ℚ) > 1000 ∨ (0 : ℚ) > 0.5 then (0.6 : ℚ) else 0) +
                         (if (0 : ℚ) > 5 ∨ (0 : ℚ) > 0.02 then (0.2 : ℚ) else 0) +
                         (if (0 : ℚ) > 10 ∨ (0 : ℚ) > 0.02 then (0.2 : ℚ) else 0)) 1), rs))
  ∧ (∀ s rs, _compute_behav_score {} = .ok (s, rs) → 0 ≤ s ∧ s ≤ 1)
  ∧ (∀ (df : List BehavRow) (probs : List ℚ) (preds : List ℕ) (thr : ℚ)
        (reasons : List String),
        predict_behav df = .ok (probs, preds, thr, reasons) →
        preds.length = probs.length ∧
        ∀ (i : ℕ) (hi : i < preds.length) (hj : i < probs.length),
          preds.get ⟨i, hi⟩ = 1 ↔ probs.get ⟨i, hj⟩ ≥ 0.6) :=
  C5_row_score_clamp_and_preds {} 0 0 0 0 0 0 0
    (by simp [coerceCount, pyOr, PyVal.truthy, pyFloat])
    (by simp [coerceCount, pyOr, PyVal.truthy, pyFloat])
    (by simp [coerceCount, pyOr, PyVal.truthy, pyFloat])
    (by simp [coerceCount, pyOr, PyVal.truthy, pyFloat])
    (by norm_num [coerceRatioField, pyOr, PyVal.truthy, pyFloat])
    (by norm_num [coerceRatioField, pyOr, PyVal.truthy, pyFloat])
    (by norm_num [coerceRatioField, pyOr, PyVal.truthy, pyFloat])

/-- C6 counterexample: a row whose total_events cell holds the text "abc"
makes the scorer raise a ValueError from float("abc") rather than degrade
to 0, so "a value that cannot convert to a number is treated as 0, never
raises" is false on the code. -/
theorem C6_counterexample_text_cell_raises :
    _compute_behav_score rowMalformed =
      .error "could not convert string to float: abc" ∧
    ¬ ∃ out, _compute_behav_score rowMalformed = .ok out := by
  have hE : _compute_behav_score rowMalformed =
      .error "could not convert string to float: abc" := by
    simp [rowMalformed, _compute_behav_score, coerceCount, pyOr, PyVal.truthy, pyFloat,
      parseFloatStr, parseUnsignedDec, trimChars, digitsVal, bind_err]
  exact ⟨hE, by simp [hE]⟩

/-- C6 (amended): the behavioural scorer raises no error on any row whose
cells are all absent, None, numeric, or strings that are empty or parse as
numbers — such cells degrade to 0 (or their parsed value) via the
`float(... or ...)` coercion; a non-empty non-numeric string, however,
raises. -/
theorem C6_amended_coercible_rows_never_raise (row : BehavRow)
    (h1 : coercibleVal row.total_events) (h2 : coercibleVal row.n_proc_create)
    (h3 : coercibleVal row.n_file_create) (h4 : coercibleVal row.n_net_conn)
    (h5 : coercibleVal row.ratio_proc_create) (h6 : coercibleVal row.ratio_file_create)
    (h7 : coercibleVal row.ratio_net_conn) :
    ∃ out, _compute_behav_score row = .ok out := by
  obtain ⟨t, ht⟩ := coerceCount_ok _ h1
  obtain ⟨np, hp⟩ := coerceCount_ok _ h2
  obtain ⟨nf, hf⟩ := coerceCount_ok _ h3
  obtain ⟨nn, hn⟩ := coerceCount_ok _ h4
  obtain ⟨rp, hrp⟩ := coerceRatioField_ok _ np t h5
  obtain ⟨rf, hrf⟩ := coerceRatioField_ok _ nf t h6
  obtain ⟨rn, hrn⟩ := coerceRatioField_ok _ nn t h7
  exact ⟨scoreFromVals np nf nn rp rf rn,
    by simp [_compute_behav_score, ht, hp, hf, hn, hrp, hrf, hrn, bind_ok]⟩

theorem C6_amended_coercible_rows_never_raise_witness :
    ∃ out, _compute_behav_score
      { total_events := some (.str ""), n_proc_create := some .none,
        n_file_create := some (.num 3), n_net_conn := Option.none,
        ratio_proc_create := some (.str "0.7") } = .ok out :=
  C6_amended_coercible_rows_never_raise _
    (Or.inl rfl) trivial trivial trivial (Or.inr (by decide)) trivial trivial

/-- C7: for every non-empty behavioural input, the returned reasons are
exactly the reasons computed for row 0 alone, while probabilities and
predictions cover every row and predictions are the elementwise ≥ 0.6
thresholding of the per-row scores. -/
theorem C7_reasons_row_zero_only (df : List BehavRow) (probs : List ℚ)
    (preds : List ℕ) (thr : ℚ) (reasons : List String) (hne : df ≠ [])
    (h : predict_behav df = .ok (probs, preds, thr, reasons)) :
    probs.length = df.length ∧ preds.length = df.length ∧
    (∀ r0, df.head? = some r0 → ∃ s0, _compute_behav_score r0 = .ok (s0, reasons)) ∧
    (∀ (i : ℕ) (hi : i < df.length) (hj : i < probs.length),
      ∃ rs, _compute_behav_score (df.get ⟨i, hi⟩) = .ok (probs.get ⟨i, hj⟩, rs)) ∧
    preds = probs.map (fun p => if p ≥ 0.6 then (1 : ℕ) else 0) := by
  have hemp : ¬ df.isEmpty := by simpa using hne
  obtain ⟨results, hres, h1, h2, h3, h4⟩ :=
    predict_behav_ok_inv df probs preds thr reasons hemp h
  have hlen := scoreRows_ok_length df results hres
  have hget := scoreRows_ok_get df results hres
  subst h1
  refine ⟨by simp [hlen], ?_, ?_, ?_, ?_⟩
  · rw [h2]; simp [hlen]
  · intro r0 hr0
    cases df with
    | nil => exact absurd rfl hne
    | cons r rest =>
        cases results with
        | nil => simp at hlen
        | cons x xs =>
            simp only [List.head?_cons, Option.some.injEq] at hr0
            subst hr0
            simp only [List.head?_cons, Option.map_some', Option.getD_some] at h4
            subst h4
            exact ⟨x.1, by simpa using hget 0 (by simp) (by simp)⟩
  · intro i hi hj
    have hj' : i < results.length := by simpa using hj
    refine ⟨(results.get ⟨i, hj'⟩).2, ?_⟩
    have hg := hget i hi hj'
    have hpr : (results.map Prod.fst).get ⟨i, hj⟩ = (results.get ⟨i, hj'⟩).1 := by
      simp [List.get_eq_getElem, List.getElem_map]
    rw [hpr]
    exact hg
  · rw [h2]; exact rfl

theorem C7_reasons_row_zero_only_witness :
    ([0] : List ℚ).length = [({} : BehavRow)].length ∧
    ([0] : List ℕ).length = [({} : BehavRow)].length ∧
    (∀ r0, [({} : BehavRow)].head? = some r0 →
      ∃ s0, _compute_behav_score r0 = .ok (s0, [reason_benign])) ∧
    (∀ (i : ℕ) (hi : i < [({} : BehavRow)].length) (hj : i < ([0] : List ℚ).length),
      ∃ rs, _compute_behav_score ([({} : BehavRow)].get ⟨i, hi⟩) =
        .ok (([0] : List ℚ).get ⟨i, hj⟩, rs)) ∧
    ([0] : List ℕ) = ([0] : List ℚ).map (fun p => if p ≥ 0.6 then (1 : ℕ) else 0) :=
  C7_reasons_row_zero_only [{}] [0] [0] BEHAV_THRESHOLD [reason_benign]
    (by simp)
    (by norm_num [predict_behav, scoreRows, _compute_behav_score, coerceCount,
      coerceRatioField, pyOr, PyVal.truthy, pyFloat, bind_ok, scoreFromVals,
      BEHAV_THRESHOLD, min_def, max_def, pure, Except.pure])

/-- C8: an empty (or absent) behavioural input returns exactly one
element: probability 0.0, prediction 0, threshold 0.6, and the single
reason that no behavioural evidence was available. -/
theorem C8_empty_input_neutral_result :
    predict_behav [] = .ok ([0], [0], BEHAV_THRESHOLD, [reason_no_events])
  ∧ BEHAV_THRESHOLD = 0.6
  ∧ reason_no_events = "No behavioural events available for analysis."
  ∧ predict_behav [] =
      .ok ([0], [0], 0.6, ["No behavioural events available for analysis."]) :=
  ⟨rfl, rfl, rfl, rfl⟩

/-- C9: when total_events coerces to 0 and no ratio columns are supplied,
all three ratios evaluate to 0 regardless of the raw counts — the
`total > 0` guard prevents any division by zero. -/
theorem C9_zero_total_zero_ratios (row : BehavRow) (total np nf nn : ℚ)
    (htot : coerceCount row.total_events = .ok total) (h0 : total = 0)
    (hrp : row.ratio_proc_create = Option.none)
    (hrf : row.ratio_file_create = Option.none)
    (hrn : row.ratio_net_conn = Option.none) :
    coerceRatioField row.ratio_proc_create np total = .ok 0 ∧
    coerceRatioField row.ratio_file_create nf total = .ok 0 ∧
    coerceRatioField row.ratio_net_conn nn total = .ok 0 := by
  subst h0
  rw [hrp, hrf, hrn]
  refine ⟨?_, ?_, ?_⟩ <;>
    norm_num [coerceRatioField, pyOr, PyVal.truthy, pyFloat]

theorem C9_zero_total_zero_ratios_witness :
    coerceRatioField ({} : BehavRow).ratio_proc_create 7 0 = .ok 0 ∧
    coerceRatioField ({} : BehavRow).ratio_file_create 8 0 = .ok 0 ∧
    coerceRatioField ({} : BehavRow).ratio_net_conn 9 0 = .ok 0 :=
  C9_zero_total_zero_ratios {} 0 7 8 9
    (by simp [coerceCount, pyOr, PyVal.truthy, pyFloat]) rfl rfl rfl rfl

end RansomDetect
